import Mathlib

/-!
# Verification of the PathLight dispatch client (`DispatchConversationManager`)

Shallow embedding of `src/server.py` (a Swift `@MainActor` class
`DispatchConversationManager`).  The client state is a record mirroring the
stored properties of the class; every method becomes a Lean function
`ClientState → ... → ClientState × List Event`, where the event list is the
ordered trace of observable effects (network requests, sleeps, playback
starts, feedback persistence, volume writes, status assignments) produced by
one sequential execution of the method.  External nondeterminism (URLSession
responses, file reads, `AVAudioPlayer` construction success) is supplied as
explicit oracle arguments.  Machine `Float` values (volumes, delays) are
modelled as rationals.
-/

namespace PathLight

/-- A JSON value as decoded by the Swift helper `AnyDecodable`
(`Bool`, `Int`, `Double`, `String`, object, array, or null). -/
inductive JsonVal where
  | null
  | bool (b : Bool)
  | int (i : Int)
  | double (q : ℚ)
  | str (s : String)
  | obj (fields : List (String × JsonVal))
  | arr (elems : List JsonVal)

/-- `AnyDecodable.stringValue` : `value as? String`. -/
def JsonVal.stringValue : JsonVal → Option String
  | .str s => some s
  | _ => none

/-- `AnyDecodable.boolValue` : `value as? Bool`. -/
def JsonVal.boolValue : JsonVal → Option Bool
  | .bool b => some b
  | _ => none

/-- `AnyDecodable.doubleValue` : a `Double` as itself, an `Int` widened to
`Double`, anything else absent. -/
def JsonVal.doubleValue : JsonVal → Option ℚ
  | .double q => some q
  | .int i => some (i : ℚ)
  | _ => none

/-- The structured pilot action of the backend envelope:
`struct PilotAction { let name: String; let args: [String: AnyDecodable]? }`.
The dictionary is modelled as an association list. -/
structure PilotAction where
  name : String
  args : Option (List (String × JsonVal))

/-- `PilotAction.argString`. -/
def PilotAction.argString (a : PilotAction) (key : String) : Option String :=
  (a.args.bind fun l => l.lookup key).bind JsonVal.stringValue

/-- `PilotAction.argBool`. -/
def PilotAction.argBool (a : PilotAction) (key : String) : Option Bool :=
  (a.args.bind fun l => l.lookup key).bind JsonVal.boolValue

/-- `PilotAction.argDouble`. -/
def PilotAction.argDouble (a : PilotAction) (key : String) : Option ℚ :=
  (a.args.bind fun l => l.lookup key).bind JsonVal.doubleValue

/-- `PilotAction.argFloat` : `Float(d)` for the `argDouble` value; the
`Double → Float` narrowing is the identity in the rational model. -/
def PilotAction.argFloat (a : PilotAction) (key : String) : Option ℚ :=
  a.argDouble key

/-- The decoded JSON envelope `BackendResponse`
`{transcript, reply, audio_b64?, audio_mime?, action?}`. -/
structure BackendResponse where
  transcript : String
  reply : String
  audio_b64 : Option String
  audio_mime : Option String
  action : Option PilotAction

/-- The orchestrator's `BackendResult`: the envelope with the base64 audio
field replaced by decoded raw bytes. -/
structure BackendResult where
  transcript : String
  reply : String
  audioData : Option (List Nat)
  audioMime : Option String
  action : Option PilotAction

/-- One HTTP response body as seen by the client: its raw text (used in
error messages) and the result of `JSONDecoder().decode(BackendResponse.self)`
on it (`none` = JSON decoding throws). -/
structure RespBody where
  text : String
  json : Option BackendResponse

/-- The outcome of one `URLSession.shared.data(for: request)` call:
either the thrown transport error's description, or a status code with a
body.  (The `resp as? HTTPURLResponse` cast always succeeds for an HTTP
URL, so the `"No HTTPURLResponse"` branch is not reachable in the model.) -/
inductive HttpAttempt where
  | netFail (msg : String)
  | ok (status : Nat) (body : RespBody)

/-- The errors `sendToBackend` can throw. `thrown` is a rethrown external
error (file read or URLSession); `busy` is the NSError built for 429;
`http` the NSError built for any other non-200 status; `jsonDecode` the
`DecodingError` from `JSONDecoder`. -/
inductive DispatchError where
  | thrown (msg : String)
  | busy (body : String)
  | http (status : Nat) (body : String)
  | jsonDecode
deriving DecidableEq

/-- `NSError.localizedDescription` of each dispatch error, as built in the
source (the `DecodingError` text is Foundation-generated; modelled by a
fixed tag). -/
def DispatchError.localizedDescription : DispatchError → String
  | .thrown m => m
  | .busy _ => "Dispatch is busy. Try again in a moment."
  | .http s b => "HTTP " ++ toString s ++ ": " ++ b
  | .jsonDecode => "The data could not be read because it is not in the correct format."

/-- Discriminator: is this the generic non-200 HTTP error? -/
def DispatchError.isHttp : DispatchError → Bool
  | .http _ _ => true
  | _ => false

/-- Discriminator: is this the distinct user-facing busy (429) error? -/
def DispatchError.isBusy : DispatchError → Bool
  | .busy _ => true
  | _ => false

/-- The multipart request assembled by `sendToBackend`: fields
`mode`, `voice`, `tts` and the recorded audio file part. -/
structure RequestData where
  mode : String
  voice : String
  tts : String
  audioFile : String
deriving DecidableEq

/-- Value of a base64 character in the standard alphabet, `none` for a
character outside it.  Models the alphabet accepted by
`Data(base64Encoded:)`. -/
def b64Val (c : Char) : Option Nat :=
  if 'A' ≤ c ∧ c ≤ 'Z' then some (c.toNat - 65)
  else if 'a' ≤ c ∧ c ≤ 'z' then some (c.toNat - 97 + 26)
  else if '0' ≤ c ∧ c ≤ '9' then some (c.toNat - 48 + 52)
  else if c = '+' then some 62
  else if c = '/' then some 63
  else none

/-- Regroup a list of 6-bit values into 8-bit bytes (big-endian bit order),
dropping the final partial byte as base64 does. -/
def sextetsToBytes : List Nat → List Nat
  | a :: b :: c :: d :: rest =>
      (a * 4 + b / 16) :: ((b % 16) * 16 + c / 4) :: ((c % 4) * 64 + d) :: sextetsToBytes rest
  | [a, b] => [a * 4 + b / 16]
  | [a, b, c] => [a * 4 + b / 16, (b % 16) * 16 + c / 4]
  | _ => []

/-- Model of Foundation's `Data(base64Encoded:)` with default options:
requires a length that is a multiple of 4, at most two trailing `=` padding
characters, and only alphabet characters before the padding; returns the
decoded bytes, or `none` on any violation. -/
def base64Decode (s : String) : Option (List Nat) :=
  let cs := s.toList
  if cs.length % 4 ≠ 0 then none
  else
    let padCount := (cs.reverse.takeWhile (· = '=')).length
    if padCount > 2 then none
    else
      match (cs.take (cs.length - padCount)).mapM b64Val with
      | none => none
      | some sextets => some (sextetsToBytes sextets)

/-- Observable effects: one constructor per side-effecting statement kind in
the source.  `volumeWrite v` records the value assigned by an assignment to
`pilotMasterVolume` or to `AudioCueEngine.shared.masterVolume`. -/
inductive Event where
  | netRequest (req : RequestData)
  | sleep (ns : Nat)
  | playbackStart (data : List Nat)
  | playbackError
  | applyAction (name : String)
  | persistNote (note : String)
  | volumeWrite (v : ℚ)
  | statusSet (s : String)
deriving DecidableEq

/-- The status check sequence applied to a response after the retry logic:
429 throws the distinct busy error, any other non-200 throws a generic
HTTP error, 200 decodes the JSON envelope and base64 audio. -/
def finishResponse (status : Nat) (b : RespBody) : Except DispatchError BackendResult :=
  if status = 429 then .error (.busy b.text)
  else if status ≠ 200 then .error (.http status b.text)
  else
    match b.json with
    | none => .error .jsonDecode
    | some env =>
        .ok { transcript := env.transcript
              reply := env.reply
              audioData := env.audio_b64.bind base64Decode
              audioMime := env.audio_mime
              action := env.action }

/-- Result record for `sendToBackend`: the returned value or thrown error,
the number of HTTP requests issued, and the effect trace. -/
structure SendResult where
  result : Except DispatchError BackendResult
  requests : Nat
  trace : List Event

/-- `sendToBackend(audioURL:)`.  `req` is the multipart request (built once;
both attempts send the same value).  `readResult` is the outcome of
`Data(contentsOf: audioURL)` (`.error` = the read threw).  `a1` is the
response to the first attempt and `a2` to the retry (consulted only when a
retry happens).  A first status in {502, 503, 504} sets status
"Waking server…", sleeps 1.5e9 ns and re-issues the identical request once;
the final response then goes through `finishResponse`. -/
def sendToBackend (req : RequestData) (readResult : Except String (List Nat))
    (a1 a2 : HttpAttempt) : SendResult :=
  match readResult with
  | .error m => ⟨.error (.thrown m), 0, []⟩
  | .ok _ =>
    match a1 with
    | .netFail m => ⟨.error (.thrown m), 1, [.netRequest req]⟩
    | .ok s1 b1 =>
      if s1 = 502 ∨ s1 = 503 ∨ s1 = 504 then
        match a2 with
        | .netFail m =>
            ⟨.error (.thrown m), 2,
              [.netRequest req, .statusSet "Waking server…", .sleep 1500000000, .netRequest req]⟩
        | .ok s2 b2 =>
            ⟨finishResponse s2 b2, 2,
              [.netRequest req, .statusSet "Waking server…", .sleep 1500000000, .netRequest req]⟩
      else ⟨finishResponse s1 b1, 1, [.netRequest req]⟩

/-- An `AVAudioPlayer` handle: the bytes it was created over and whether it
is currently playing. -/
structure PlayerHandle where
  data : List Nat
  playing : Bool
deriving DecidableEq

/-- The stored properties of `DispatchConversationManager`.  `players` is
the history of every `AVAudioPlayer` ever constructed (so that "at most one
handle is active" is expressible); `audioPlayerIdx` is the index in that
history currently referenced by the `audioPlayer` property.  The feedback
file `feedback.jsonl` is modelled by the list of note lines appended to it,
and `AudioCueEngine.shared.masterVolume` (external, initial value unknown)
by an `Option`. -/
structure ClientState where
  isRecording : Bool
  lastTranscript : String
  lastReply : String
  status : String
  useServerTTS : Bool
  selectedVoice : String
  replyPlaybackDelaySeconds : ℚ
  recorder : Option String
  pilotMasterVolume : ℚ
  lastServerAudioData : Option (List Nat)
  lastServerAudioMime : Option String
  players : List PlayerHandle
  audioPlayerIdx : Option Nat
  engineMasterVolume : Option ℚ
  feedbackNotes : List String
deriving DecidableEq

/-- The initial property values of the class. -/
def initialState : ClientState :=
  { isRecording := false
    lastTranscript := ""
    lastReply := ""
    status := "Ready"
    useServerTTS := true
    selectedVoice := "nova"
    replyPlaybackDelaySeconds := 3
    recorder := none
    pilotMasterVolume := 1/2
    lastServerAudioData := none
    lastServerAudioMime := none
    players := []
    audioPlayerIdx := none
    engineMasterVolume := none
    feedbackNotes := [] }

/-- `max(0.0, min(1.0, v))`. -/
def clamp01 (v : ℚ) : ℚ := max 0 (min 1 v)

/-- An assignment to `pilotMasterVolume`: the property's `didSet` observer
re-clamps whatever was assigned (`pilotMasterVolume = max(0.0, min(1.0,
pilotMasterVolume))`; the self-assignment inside `didSet` does not recurse).
The emitted `volumeWrite` records the value the program assigned. -/
def writeVolume (s : ClientState) (v : ℚ) : ClientState × List Event :=
  ({ s with pilotMasterVolume := clamp01 v }, [.volumeWrite v])

/-- `setMasterVolume(_:)`: clamp, assign to `pilotMasterVolume`, and write
through to `AudioCueEngine.shared.masterVolume`. -/
def setMasterVolume (s : ClientState) (v : ℚ) : ClientState × List Event :=
  let clamped := clamp01 v
  let r := writeVolume s clamped
  ({ r.1 with engineMasterVolume := some clamped }, r.2 ++ [.volumeWrite clamped])

/-- Stop the handle at index `i` (the `audioPlayer?.stop()` call). -/
def stopHandle : List PlayerHandle → Nat → List PlayerHandle
  | [], _ => []
  | h :: t, 0 => { h with playing := false } :: t
  | h :: t, n + 1 => h :: stopHandle t n

/-- `playServerAudio(_:)`: stop the current handle (if any), then construct
a fresh `AVAudioPlayer` over `data` and play it.  `initOk` is the oracle for
whether `AVAudioPlayer(data:)` throws; on a throw the old (now stopped)
handle stays referenced and the error is only logged. -/
def playServerAudio (s : ClientState) (data : List Nat) (initOk : Bool) :
    ClientState × List Event :=
  let s1 :=
    match s.audioPlayerIdx with
    | some i => { s with players := stopHandle s.players i }
    | none => s
  if initOk then
    ({ s1 with players := s1.players ++ [⟨data, true⟩]
               audioPlayerIdx := some s1.players.length },
      [.playbackStart data])
  else (s1, [.playbackError])

/-- `UInt64(max(0.0, delaySeconds) * 1_000_000_000.0)`. -/
def delayNanos (delaySeconds : ℚ) : Nat :=
  (⌊max 0 delaySeconds * 1000000000⌋).toNat

/-- `playServerAudioDelayed(_:delaySeconds:)`: sleep for the computed
nanoseconds when positive, then play. -/
def playServerAudioDelayed (s : ClientState) (data : List Nat) (delaySeconds : ℚ)
    (initOk : Bool) : ClientState × List Event :=
  let ns := delayNanos delaySeconds
  let r := playServerAudio s data initOk
  if ns > 0 then (r.1, .sleep ns :: r.2) else r

/-- The character set `.whitespacesAndNewlines` (its ASCII members; the
transcripts and replies handled here are produced from these). -/
def isWS (c : Char) : Bool := c = ' ' ∨ c = '\t' ∨ c = '\n' ∨ c = '\r'

/-- `note.trimmingCharacters(in: .whitespacesAndNewlines)`. -/
def trimWS (str : String) : String :=
  .mk ((((str.toList.dropWhile isWS).reverse).dropWhile isWS).reverse)

/-- `saveFeedbackNote(_:)`: trim; discard silently when empty after the
trim; otherwise append one record holding the trimmed note to
`feedback.jsonl`.  (The file-system errors of the `do` block are logged
only; the model takes the write as succeeding.) -/
def saveFeedbackNote (s : ClientState) (note : String) : ClientState × List Event :=
  let trimmed := trimWS note
  if trimmed = "" then (s, [])
  else ({ s with feedbackNotes := s.feedbackNotes ++ [trimmed] }, [.persistNote trimmed])

/-- The `switch action.name` body of `applyPilotAction`. -/
def pilotActionBody (s : ClientState) (a : PilotAction) (replyText : String)
    (initOk : Bool) : ClientState × List Event :=
  if a.name = "repeat_last" then
    match s.lastServerAudioData with
    | some d => playServerAudioDelayed s d (1/5) initOk
    | none => (s, [])
  else if a.name = "help" then (s, [])
  else if a.name = "set_tts" then
    match a.argBool "enabled" with
    | some enabled => ({ s with useServerTTS := enabled }, [])
    | none => (s, [])
  else if a.name = "set_voice" then
    match a.argString "voice" with
    | some v => if v ≠ "" then ({ s with selectedVoice := v }, []) else (s, [])
    | none => (s, [])
  else if a.name = "adjust_volume" then
    let delta := (a.argFloat "delta").getD 0
    setMasterVolume s (s.pilotMasterVolume + delta)
  else if a.name = "set_volume" then
    match a.argFloat "value" with
    | some v => setMasterVolume s v
    | none => (s, [])
  else if a.name = "save_feedback" then
    let note := (a.argString "note").getD replyText
    saveFeedbackNote s note
  else (s, [])

/-- `applyPilotAction(_:replyText:)`: logs the action name on entry
(recorded as an `applyAction` event), then dispatches on the name. -/
def applyPilotAction (s : ClientState) (a : PilotAction) (replyText : String)
    (initOk : Bool) : ClientState × List Event :=
  let r := pilotActionBody s a replyText initOk
  (r.1, .applyAction a.name :: r.2)

/-- `startRecording()`: configure the audio session and construct the
recorder.  `micOk` is the oracle for the `try` statements of the `do` block
(`errMsg` the thrown error's description), `url` the fresh temporary file
name.  On success the recorder records and `isRecording`/status are set; on
a throw only the status changes. -/
def startRecording (s : ClientState) (micOk : Bool) (url errMsg : String) :
    ClientState × List Event :=
  let s0 := { s with status := "Starting mic…" }
  if micOk then
    ({ s0 with recorder := some url, isRecording := true, status := "Recording…" },
      [.statusSet "Starting mic…", .statusSet "Recording…"])
  else
    ({ s0 with status := "Mic error: " ++ errMsg },
      [.statusSet "Starting mic…", .statusSet ("Mic error: " ++ errMsg)])

/-- The multipart form assembled by `sendToBackend` for a state's knobs:
fields `mode` (fixed), `voice`, `tts` ("1"/"0") and the recorded audio. -/
def requestFor (s : ClientState) (recUrl : String) : RequestData :=
  { mode := "pathlight_dispatch_v1"
    voice := s.selectedVoice
    tts := if s.useServerTTS then "1" else "0"
    audioFile := recUrl }

/-- `stopRecordingAndSend()`.  Guards on the recorder; stops it, clears it,
uploads via `sendToBackend`, and on success publishes the transcript/reply,
applies the pilot action (when present), caches and plays the server audio
(when present).  A thrown dispatch error is caught and reported as status
text.  Oracles: `readResult` for `Data(contentsOf:)`, `a1`/`a2` for the two
possible HTTP attempts, `initOk` for `AVAudioPlayer` construction. -/
def stopRecordingAndSend (s : ClientState) (readResult : Except String (List Nat))
    (a1 a2 : HttpAttempt) (initOk : Bool) : ClientState × List Event :=
  match s.recorder with
  | none => (s, [])
  | some recUrl =>
    let s1 := { s with isRecording := false, status := "Uploading…", recorder := none }
    let req := requestFor s1 recUrl
    let sr := sendToBackend req readResult a1 a2
    let ev0 := Event.statusSet "Uploading…" :: sr.trace
    match sr.result with
    | .error e =>
        let msg := "Dispatch error: " ++ e.localizedDescription
        ({ s1 with status := msg }, ev0 ++ [.statusSet msg])
    | .ok r =>
        let s2 := { s1 with lastTranscript := r.transcript, lastReply := r.reply,
                            status := "Done" }
        let rA :=
          match r.action with
          | some act => applyPilotAction s2 act r.reply initOk
          | none => (s2, [])
        match r.audioData with
        | some d =>
            let s4 := { rA.1 with lastServerAudioData := some d
                                  lastServerAudioMime := r.audioMime }
            let rP := playServerAudioDelayed s4 d s4.replyPlaybackDelaySeconds initOk
            (rP.1, ev0 ++ [.statusSet "Done"] ++ rA.2 ++ rP.2)
        | none => (rA.1, ev0 ++ [.statusSet "Done"] ++ rA.2)

/-- States reachable by the class's entry points from its initial property
values, under every possible oracle. -/
inductive Reachable : ClientState → Prop
  | init : Reachable initialState
  | start (s : ClientState) (micOk : Bool) (url errMsg : String) :
      Reachable s → Reachable (startRecording s micOk url errMsg).1
  | stopSend (s : ClientState) (readResult : Except String (List Nat))
      (a1 a2 : HttpAttempt) (initOk : Bool) :
      Reachable s → Reachable (stopRecordingAndSend s readResult a1 a2 initOk).1

/-- Number of player handles currently playing. -/
def activePlaybackCount (s : ClientState) : Nat :=
  (s.players.filter fun h => h.playing).length

/-- Only the handle referenced by `audioPlayer` can be playing. -/
def HandleInv (s : ClientState) : Prop :=
  ∀ j h, s.players.get? j = some h → h.playing = true → s.audioPlayerIdx = some j

/-- The master volume is within its published bounds. -/
def VolInv (s : ClientState) : Prop :=
  0 ≤ s.pilotMasterVolume ∧ s.pilotMasterVolume ≤ 1

/-- Every volume value assigned during a trace lies in `[0, 1]`. -/
def GoodWrites (t : List Event) : Prop :=
  ∀ v, Event.volumeWrite v ∈ t → 0 ≤ v ∧ v ≤ 1

/-! ## Helper lemmas -/

theorem clamp01_nonneg (v : ℚ) : 0 ≤ clamp01 v := le_max_left 0 _

theorem clamp01_le_one (v : ℚ) : clamp01 v ≤ 1 :=
  max_le (by norm_num) (min_le_left 1 v)

theorem clamp01_mem (v : ℚ) : 0 ≤ clamp01 v ∧ clamp01 v ≤ 1 :=
  ⟨clamp01_nonneg v, clamp01_le_one v⟩

theorem setMasterVolume_volume (s : ClientState) (v : ℚ) :
    (setMasterVolume s v).1.pilotMasterVolume = clamp01 v := by
  simp [setMasterVolume, writeVolume, clamp01]

theorem volInv_setMasterVolume (s : ClientState) (v : ℚ) :
    VolInv (setMasterVolume s v).1 := by
  rw [VolInv, setMasterVolume_volume]; exact clamp01_mem v

theorem playServerAudio_volume (s : ClientState) (d : List Nat) (ok : Bool) :
    (playServerAudio s d ok).1.pilotMasterVolume = s.pilotMasterVolume := by
  rw [playServerAudio]
  cases s.audioPlayerIdx <;> cases ok <;> simp

theorem playServerAudioDelayed_volume (s : ClientState) (d : List Nat) (delay : ℚ)
    (ok : Bool) :
    (playServerAudioDelayed s d delay ok).1.pilotMasterVolume = s.pilotMasterVolume := by
  rw [playServerAudioDelayed]
  split <;> simpa using playServerAudio_volume s d ok

theorem saveFeedbackNote_volume (s : ClientState) (note : String) :
    (saveFeedbackNote s note).1.pilotMasterVolume = s.pilotMasterVolume := by
  rw [saveFeedbackNote]
  split <;> simp

theorem volInv_pilotActionBody (s : ClientState) (a : PilotAction) (rt : String)
    (ok : Bool) (hs : VolInv s) : VolInv (pilotActionBody s a rt ok).1 := by
  rw [pilotActionBody]
  split
  · split
    · rw [VolInv, playServerAudioDelayed_volume]; exact hs
    · exact hs
  split
  · exact hs
  split
  · split <;> exact hs
  split
  · split
    · split <;> exact hs
    · exact hs
  split
  · exact volInv_setMasterVolume _ _
  split
  · split
    · exact volInv_setMasterVolume _ _
    · exact hs
  split
  · rw [VolInv, saveFeedbackNote_volume]; exact hs
  · exact hs

theorem volInv_applyPilotAction (s : ClientState) (a : PilotAction) (rt : String)
    (ok : Bool) (hs : VolInv s) : VolInv (applyPilotAction s a rt ok).1 :=
  volInv_pilotActionBody s a rt ok hs

theorem volInv_startRecording (s : ClientState) (micOk : Bool) (url errMsg : String)
    (hs : VolInv s) : VolInv (startRecording s micOk url errMsg).1 := by
  rw [startRecording]
  split <;> exact hs

theorem volInv_stopRecordingAndSend (s : ClientState)
    (read : Except String (List Nat)) (a1 a2 : HttpAttempt) (ok : Bool)
    (hs : VolInv s) : VolInv (stopRecordingAndSend s read a1 a2 ok).1 := by
  rw [stopRecordingAndSend]
  split
  · exact hs
  dsimp only
  split
  · exact hs
  split
  · split
    · rw [VolInv, playServerAudioDelayed_volume]
      exact volInv_applyPilotAction _ _ _ _ hs
    · rw [VolInv, playServerAudioDelayed_volume]
      exact hs
  · split
    · exact volInv_applyPilotAction _ _ _ _ hs
    · exact hs

theorem volInv_reachable (s : ClientState) (h : Reachable s) : VolInv s := by
  induction h with
  | init => refine ⟨?_, ?_⟩ <;> norm_num [initialState]
  | start s micOk url errMsg _ ih => exact volInv_startRecording s micOk url errMsg ih
  | stopSend s read a1 a2 ok _ ih => exact volInv_stopRecordingAndSend s read a1 a2 ok ih

theorem goodWrites_nil : GoodWrites [] := by
  intro v hv
  simp at hv

theorem goodWrites_append {a b : List Event} (ha : GoodWrites a) (hb : GoodWrites b) :
    GoodWrites (a ++ b) := by
  intro v hv
  rcases List.mem_append.mp hv with h | h
  exacts [ha v h, hb v h]

theorem goodWrites_cons {e : Event} (he : ∀ v, e ≠ .volumeWrite v) {t : List Event}
    (ht : GoodWrites t) : GoodWrites (e :: t) := by
  intro v hv
  rcases List.mem_cons.mp hv with h | h
  · exact absurd h.symm (he v)
  · exact ht v h

theorem goodWrites_setMasterVolume (s : ClientState) (v : ℚ) :
    GoodWrites (setMasterVolume s v).2 := by
  intro v' hv'
  simp only [setMasterVolume, writeVolume, List.mem_append, List.mem_singleton,
    List.mem_cons, List.not_mem_nil, or_false, Event.volumeWrite.injEq] at hv'
  rcases hv' with h | h <;> (subst h; exact clamp01_mem v)

theorem goodWrites_playServerAudio (s : ClientState) (d : List Nat) (ok : Bool) :
    GoodWrites (playServerAudio s d ok).2 := by
  rw [playServerAudio]
  cases ok <;> simp only [Bool.false_eq_true, if_false, if_true, ite_true, ite_false] <;>
    exact goodWrites_cons (by intro v h; cases h) goodWrites_nil

theorem goodWrites_playServerAudioDelayed (s : ClientState) (d : List Nat)
    (delay : ℚ) (ok : Bool) : GoodWrites (playServerAudioDelayed s d delay ok).2 := by
  rw [playServerAudioDelayed]
  split
  · exact goodWrites_cons (by intro v h; cases h) (goodWrites_playServerAudio s d ok)
  · exact goodWrites_playServerAudio s d ok

theorem goodWrites_saveFeedbackNote (s : ClientState) (note : String) :
    GoodWrites (saveFeedbackNote s note).2 := by
  rw [saveFeedbackNote]
  split
  · exact goodWrites_nil
  · exact goodWrites_cons (by intro v h; cases h) goodWrites_nil

theorem goodWrites_pilotActionBody (s : ClientState) (a : PilotAction) (rt : String)
    (ok : Bool) : GoodWrites (pilotActionBody s a rt ok).2 := by
  rw [pilotActionBody]
  split
  · split
    · exact goodWrites_playServerAudioDelayed _ _ _ _
    · exact goodWrites_nil
  split
  · exact goodWrites_nil
  split
  · split <;> exact goodWrites_nil
  split
  · split
    · split <;> exact goodWrites_nil
    · exact goodWrites_nil
  split
  · exact goodWrites_setMasterVolume _ _
  split
  · split
    · exact goodWrites_setMasterVolume _ _
    · exact goodWrites_nil
  split
  · exact goodWrites_saveFeedbackNote _ _
  · exact goodWrites_nil

theorem goodWrites_applyPilotAction (s : ClientState) (a : PilotAction) (rt : String)
    (ok : Bool) : GoodWrites (applyPilotAction s a rt ok).2 :=
  goodWrites_cons (by intro v h; cases h) (goodWrites_pilotActionBody s a rt ok)

theorem sendToBackend_trace_cases (req : RequestData) (read : Except String (List Nat))
    (a1 a2 : HttpAttempt) :
    (sendToBackend req read a1 a2).trace = [] ∨
    (sendToBackend req read a1 a2).trace = [.netRequest req] ∨
    (sendToBackend req read a1 a2).trace =
      [.netRequest req, .statusSet "Waking server…", .sleep 1500000000, .netRequest req] := by
  rw [sendToBackend.eq_def]
  rcases read with m | bytes
  · exact Or.inl rfl
  rcases a1 with m | ⟨s1, b1⟩
  · exact Or.inr (Or.inl rfl)
  dsimp only
  split
  · rcases a2 with m | ⟨s2, b2⟩ <;> exact Or.inr (Or.inr rfl)
  · exact Or.inr (Or.inl rfl)

theorem goodWrites_sendToBackend (req : RequestData) (read : Except String (List Nat))
    (a1 a2 : HttpAttempt) : GoodWrites (sendToBackend req read a1 a2).trace := by
  intro v hv
  rcases sendToBackend_trace_cases req read a1 a2 with h | h | h <;> rw [h] at hv <;>
    simp at hv

theorem goodWrites_startRecording (s : ClientState) (micOk : Bool) (url errMsg : String) :
    GoodWrites (startRecording s micOk url errMsg).2 := by
  rw [startRecording]
  split <;>
    exact goodWrites_cons (by intro v h; cases h)
      (goodWrites_cons (by intro v h; cases h) goodWrites_nil)

theorem goodWrites_stopRecordingAndSend (s : ClientState)
    (read : Except String (List Nat)) (a1 a2 : HttpAttempt) (ok : Bool) :
    GoodWrites (stopRecordingAndSend s read a1 a2 ok).2 := by
  rw [stopRecordingAndSend]
  split
  · exact goodWrites_nil
  dsimp only
  split
  · exact goodWrites_cons (by intro v h; cases h)
      (goodWrites_append (goodWrites_sendToBackend _ _ _ _)
        (goodWrites_cons (by intro v h; cases h) goodWrites_nil))
  · split
    · refine goodWrites_append (goodWrites_append (goodWrites_append ?_ ?_) ?_) ?_
      · exact goodWrites_cons (by intro v h; cases h) (goodWrites_sendToBackend _ _ _ _)
      · exact goodWrites_cons (by intro v h; cases h) goodWrites_nil
      · split
        · exact goodWrites_applyPilotAction _ _ _ _
        · exact goodWrites_nil
      · exact goodWrites_playServerAudioDelayed _ _ _ _
    · refine goodWrites_append (goodWrites_append ?_ ?_) ?_
      · exact goodWrites_cons (by intro v h; cases h) (goodWrites_sendToBackend _ _ _ _)
      · exact goodWrites_cons (by intro v h; cases h) goodWrites_nil
      · split
        · exact goodWrites_applyPilotAction _ _ _ _
        · exact goodWrites_nil

theorem stopHandle_length (l : List PlayerHandle) (i : Nat) :
    (stopHandle l i).length = l.length := by
  induction l generalizing i with
  | nil => rfl
  | cons a t ih =>
      cases i with
      | zero => rfl
      | succ n => simp [stopHandle, ih]

theorem stopHandle_get?_self (l : List PlayerHandle) (i : Nat) :
    (stopHandle l i).get? i = (l.get? i).map fun h => { h with playing := false } := by
  induction l generalizing i with
  | nil => rfl
  | cons a t ih =>
      cases i with
      | zero => rfl
      | succ n => simpa [stopHandle] using ih n

theorem stopHandle_get?_ne (l : List PlayerHandle) {i j : Nat} (hne : j ≠ i) :
    (stopHandle l i).get? j = l.get? j := by
  induction l generalizing i j with
  | nil => rfl
  | cons a t ih =>
      cases i with
      | zero =>
          cases j with
          | zero => exact absurd rfl hne
          | succ m => rfl
      | succ n =>
          cases j with
          | zero => rfl
          | succ m => simpa [stopHandle] using ih (fun h => hne (by rw [h]))

theorem mem_exists_get? {α : Type} {x : α} :
    ∀ {l : List α}, x ∈ l → ∃ n, l.get? n = some x := by
  intro l
  induction l with
  | nil => intro h; cases h
  | cons a t ih =>
      intro h
      rcases List.mem_cons.mp h with rfl | h'
      · exact ⟨0, rfl⟩
      · obtain ⟨n, hn⟩ := ih h'
        exact ⟨n + 1, hn⟩

theorem filter_playing_length_le_one (l : List PlayerHandle)
    (h : ∀ i j hi hj, l.get? i = some hi → l.get? j = some hj →
          hi.playing = true → hj.playing = true → i = j) :
    (l.filter fun x => x.playing).length ≤ 1 := by
  induction l with
  | nil => simp
  | cons a t ih =>
      by_cases ha : a.playing = true
      · have ht : t.filter (fun x => x.playing) = [] := by
          rw [List.eq_nil_iff_forall_not_mem]
          intro x hx
          obtain ⟨hxt, hxp⟩ := List.mem_filter.mp hx
          obtain ⟨n, hn⟩ := mem_exists_get? hxt
          have h0 : (0 : Nat) = n + 1 := h 0 (n + 1) a x rfl hn ha hxp
          exact Nat.succ_ne_zero n h0.symm
        simp [List.filter_cons, ha, ht]
      · have ht := ih fun i j hi hj h1 h2 p1 p2 =>
          Nat.succ_injective (h (i + 1) (j + 1) hi hj h1 h2 p1 p2)
        simpa [List.filter_cons, ha] using ht

theorem handleInv_at_most_one {s : ClientState} (hs : HandleInv s) :
    activePlaybackCount s ≤ 1 := by
  refine filter_playing_length_le_one s.players fun i j hi hj h1 h2 p1 p2 => ?_
  have hsi := hs i hi h1 p1
  have hsj := hs j hj h2 p2
  rw [hsi] at hsj
  exact Option.some_injective _ hsj

/-- After `audioPlayer?.stop()`, no handle of the pre-state is playing,
provided only the current one could have been. -/
theorem stopped_after_stop (s : ClientState) (i : Nat) (hs : HandleInv s)
    (hidx : s.audioPlayerIdx = some i) :
    ∀ j h, (stopHandle s.players i).get? j = some h → h.playing = true → False := by
  intro j h hget hp
  by_cases hji : j = i
  · subst hji
    rw [stopHandle_get?_self] at hget
    rcases hopt : s.players.get? j with _ | h0
    · rw [hopt] at hget; cases hget
    · rw [hopt] at hget
      cases hget
      cases hp
  · rw [stopHandle_get?_ne _ hji] at hget
    have hj := hs j h hget hp
    rw [hidx] at hj
    exact hji (Option.some_injective _ hj.symm)

/-- After appending a fresh playing handle to a list with no playing handle,
only the final index plays, and the new current index is that index. -/
theorem handleInv_append_fresh (l : List PlayerHandle) (d : List Nat)
    (hnone : ∀ j h, l.get? j = some h → h.playing = true → False) :
    ∀ j h, (l ++ [(⟨d, true⟩ : PlayerHandle)]).get? j = some h → h.playing = true →
      (some l.length : Option Nat) = some j := by
  intro j h hget hp
  rcases lt_trichotomy j l.length with hlt | heq | hgt
  · rw [List.get?_append hlt] at hget
    exact absurd hp (fun hp => hnone j h hget hp)
  · rw [heq]
  · rw [List.get?_eq_none.mpr (by simp only [List.length_append, List.length_singleton]; omega)]
      at hget
    cases hget

theorem handleInv_playServerAudio (s : ClientState) (d : List Nat) (ok : Bool)
    (hs : HandleInv s) : HandleInv (playServerAudio s d ok).1 := by
  rw [playServerAudio]
  split
  · -- AVAudioPlayer construction succeeded: fresh handle appended
    split
    · -- audioPlayerIdx = some i : the current handle was stopped first
      rename_i i hidx
      intro j h hget hp
      exact handleInv_append_fresh _ d (stopped_after_stop s i hs hidx) j h hget hp
    · -- audioPlayerIdx = none : nothing was playing before
      rename_i hidx
      have hnone : ∀ j h, s.players.get? j = some h → h.playing = true → False := by
        intro j h hget hp
        have hj := hs j h hget hp
        rw [hidx] at hj
        cases hj
      intro j h hget hp
      exact handleInv_append_fresh _ d hnone j h hget hp
  · -- construction threw: the old (stopped) handle stays referenced
    split
    · rename_i i hidx
      intro j h hget hp
      exact absurd hp (fun hp => stopped_after_stop s i hs hidx j h hget hp)
    · exact hs

theorem handleInv_playServerAudioDelayed (s : ClientState) (d : List Nat)
    (delay : ℚ) (ok : Bool) (hs : HandleInv s) :
    HandleInv (playServerAudioDelayed s d delay ok).1 := by
  rw [playServerAudioDelayed]
  split <;> exact handleInv_playServerAudio s d ok hs

theorem handleInv_saveFeedbackNote (s : ClientState) (note : String)
    (hs : HandleInv s) : HandleInv (saveFeedbackNote s note).1 := by
  rw [saveFeedbackNote]
  split <;> exact hs

theorem handleInv_pilotActionBody (s : ClientState) (a : PilotAction) (rt : String)
    (ok : Bool) (hs : HandleInv s) : HandleInv (pilotActionBody s a rt ok).1 := by
  rw [pilotActionBody]
  split
  · split
    · exact handleInv_playServerAudioDelayed _ _ _ _ hs
    · exact hs
  split
  · exact hs
  split
  · split <;> exact hs
  split
  · split
    · split <;> exact hs
    · exact hs
  split
  · exact hs
  split
  · split <;> exact hs
  split
  · exact handleInv_saveFeedbackNote _ _ hs
  · exact hs

theorem handleInv_applyPilotAction (s : ClientState) (a : PilotAction) (rt : String)
    (ok : Bool) (hs : HandleInv s) : HandleInv (applyPilotAction s a rt ok).1 :=
  handleInv_pilotActionBody s a rt ok hs

theorem handleInv_startRecording (s : ClientState) (micOk : Bool) (url errMsg : String)
    (hs : HandleInv s) : HandleInv (startRecording s micOk url errMsg).1 := by
  rw [startRecording]
  split <;> exact hs

theorem handleInv_stopRecordingAndSend (s : ClientState)
    (read : Except String (List Nat)) (a1 a2 : HttpAttempt) (ok : Bool)
    (hs : HandleInv s) : HandleInv (stopRecordingAndSend s read a1 a2 ok).1 := by
  rw [stopRecordingAndSend]
  split
  · exact hs
  dsimp only
  split
  · exact hs
  split
  · split
    · exact handleInv_playServerAudioDelayed _ _ _ _
        (handleInv_applyPilotAction _ _ _ _ hs)
    · exact handleInv_playServerAudioDelayed _ _ _ _ hs
  · split
    · exact handleInv_applyPilotAction _ _ _ _ hs
    · exact hs

theorem handleInv_reachable (s : ClientState) (h : Reachable s) : HandleInv s := by
  induction h with
  | init => intro j h hget hp; cases hget
  | start s micOk url errMsg _ ih => exact handleInv_startRecording s micOk url errMsg ih
  | stopSend s read a1 a2 ok _ ih => exact handleInv_stopRecordingAndSend s read a1 a2 ok ih

theorem delayNanos_fifth : delayNanos (1/5 : ℚ) = 200000000 := by
  rw [delayNanos]
  norm_num
  rfl

theorem playServerAudio_trace (s : ClientState) (d : List Nat) (ok : Bool) :
    (playServerAudio s d ok).2 = if ok then [.playbackStart d] else [.playbackError] := by
  cases ok <;> rfl

theorem playServerAudio_cacheData (s : ClientState) (d : List Nat) (ok : Bool) :
    (playServerAudio s d ok).1.lastServerAudioData = s.lastServerAudioData := by
  rw [playServerAudio]
  split <;> split <;> rfl

theorem playServerAudio_cacheMime (s : ClientState) (d : List Nat) (ok : Bool) :
    (playServerAudio s d ok).1.lastServerAudioMime = s.lastServerAudioMime := by
  rw [playServerAudio]
  split <;> split <;> rfl

theorem playServerAudioDelayed_cacheData (s : ClientState) (d : List Nat) (delay : ℚ)
    (ok : Bool) :
    (playServerAudioDelayed s d delay ok).1.lastServerAudioData = s.lastServerAudioData := by
  rw [playServerAudioDelayed]
  split <;> simpa using playServerAudio_cacheData s d ok

theorem playServerAudioDelayed_cacheMime (s : ClientState) (d : List Nat) (delay : ℚ)
    (ok : Bool) :
    (playServerAudioDelayed s d delay ok).1.lastServerAudioMime = s.lastServerAudioMime := by
  rw [playServerAudioDelayed]
  split <;> simpa using playServerAudio_cacheMime s d ok

theorem playbackStart_mem_delayed (s : ClientState) (d : List Nat) (delay : ℚ) :
    Event.playbackStart d ∈ (playServerAudioDelayed s d delay true).2 := by
  rw [playServerAudioDelayed]
  split <;> simp [playServerAudio_trace]

theorem applyPilotAction_eq (s : ClientState) (a : PilotAction) (rt : String)
    (ok : Bool) :
    applyPilotAction s a rt ok
      = ((pilotActionBody s a rt ok).1,
          .applyAction a.name :: (pilotActionBody s a rt ok).2) := rfl

theorem pilotActionBody_repeat_last (s : ClientState) (a : PilotAction) (rt : String)
    (ok : Bool) (hname : a.name = "repeat_last") :
    pilotActionBody s a rt ok
      = match s.lastServerAudioData with
        | some d => playServerAudioDelayed s d (1/5) ok
        | none => (s, []) := by
  rw [pilotActionBody, hname]
  rfl

theorem pilotActionBody_adjust_volume (s : ClientState) (a : PilotAction) (rt : String)
    (ok : Bool) (hname : a.name = "adjust_volume") :
    pilotActionBody s a rt ok
      = setMasterVolume s (s.pilotMasterVolume + (a.argFloat "delta").getD 0) := by
  rw [pilotActionBody, hname]
  rfl

theorem pilotActionBody_set_volume (s : ClientState) (a : PilotAction) (rt : String)
    (ok : Bool) (hname : a.name = "set_volume") :
    pilotActionBody s a rt ok
      = match a.argFloat "value" with
        | some v => setMasterVolume s v
        | none => (s, []) := by
  rw [pilotActionBody, hname]
  rfl

theorem pilotActionBody_save_feedback (s : ClientState) (a : PilotAction) (rt : String)
    (ok : Bool) (hname : a.name = "save_feedback") :
    pilotActionBody s a rt ok = saveFeedbackNote s ((a.argString "note").getD rt) := by
  rw [pilotActionBody, hname]
  rfl

theorem sendToBackend_trace_only_net_status_sleep (req : RequestData)
    (read : Except String (List Nat)) (a1 a2 : HttpAttempt) :
    ∀ ev ∈ (sendToBackend req read a1 a2).trace,
      ev = Event.netRequest req ∨ ev = Event.statusSet "Waking server…" ∨
      ev = Event.sleep 1500000000 := by
  intro ev hev
  rcases sendToBackend_trace_cases req read a1 a2 with h | h | h <;> rw [h] at hev <;>
    simp only [List.mem_singleton, List.mem_cons, List.not_mem_nil, or_false] at hev <;>
    tauto

/-- Reduction of `stopRecordingAndSend` when the dispatch throws: the error
is caught and reported as status text, nothing else happens. -/
theorem stopRecordingAndSend_error (s : ClientState) (recUrl : String)
    (read : Except String (List Nat)) (a1 a2 : HttpAttempt) (ok : Bool)
    (e : DispatchError) (hrec : s.recorder = some recUrl)
    (herr : (sendToBackend (requestFor s recUrl) read a1 a2).result = .error e) :
    stopRecordingAndSend s read a1 a2 ok
      = ({ s with
            isRecording := false
            recorder := none
            status := "Dispatch error: " ++ e.localizedDescription },
         Event.statusSet "Uploading…"
           :: (sendToBackend (requestFor s recUrl) read a1 a2).trace
           ++ [Event.statusSet ("Dispatch error: " ++ e.localizedDescription)]) := by
  rw [stopRecordingAndSend, hrec]
  dsimp only
  have hreq : requestFor
      ({ s with isRecording := false, status := "Uploading…", recorder := none } :
        ClientState) recUrl = requestFor s recUrl := rfl
  rw [hreq, herr]

/-- Reduction of `stopRecordingAndSend` when the dispatch returns a result:
publish transcript/reply, apply the action (when present), then cache and
play the audio (when present). -/
theorem stopRecordingAndSend_ok (s : ClientState) (recUrl : String)
    (read : Except String (List Nat)) (a1 a2 : HttpAttempt) (ok : Bool)
    (r : BackendResult) (hrec : s.recorder = some recUrl)
    (hok : (sendToBackend (requestFor s recUrl) read a1 a2).result = .ok r) :
    stopRecordingAndSend s read a1 a2 ok
      = (let s2 : ClientState := { s with
            isRecording := false
            recorder := none
            status := "Done"
            lastTranscript := r.transcript
            lastReply := r.reply };
         let rA := match r.action with
           | some act => applyPilotAction s2 act r.reply ok
           | none => (s2, []);
         let ev0 := Event.statusSet "Uploading…"
           :: (sendToBackend (requestFor s recUrl) read a1 a2).trace;
         match r.audioData with
         | some d =>
             let s4 := { rA.1 with
                 lastServerAudioData := some d
                 lastServerAudioMime := r.audioMime };
             let rP := playServerAudioDelayed s4 d s4.replyPlaybackDelaySeconds ok;
             (rP.1, ev0 ++ [Event.statusSet "Done"] ++ rA.2 ++ rP.2)
         | none => (rA.1, ev0 ++ [Event.statusSet "Done"] ++ rA.2)) := by
  rw [stopRecordingAndSend, hrec]
  dsimp only
  have hreq : requestFor
      ({ s with isRecording := false, status := "Uploading…", recorder := none } :
        ClientState) recUrl = requestFor s recUrl := rfl
  rw [hreq, hok]

/-! ## Claims -/

/-- C10: calling `stopRecordingAndSend` with no active recorder returns
immediately with no effect: the state is unchanged and no event (in
particular no network request) is produced. -/
theorem C10_stop_without_recorder_noop (s : ClientState)
    (read : Except String (List Nat)) (a1 a2 : HttpAttempt) (ok : Bool)
    (h : s.recorder = none) :
    stopRecordingAndSend s read a1 a2 ok = (s, []) := by
  rw [stopRecordingAndSend, h]

theorem C10_witness :
    initialState.recorder = none ∧
    stopRecordingAndSend initialState (.ok []) (.ok 200 ⟨"", none⟩) (.ok 200 ⟨"", none⟩) true
      = (initialState, []) :=
  ⟨rfl, C10_stop_without_recorder_noop initialState (.ok []) (.ok 200 ⟨"", none⟩)
    (.ok 200 ⟨"", none⟩) true rfl⟩

/-- C7: a `repeat_last` action with a cached audio blob plays exactly the
cached bytes after a 0.2 s (200000000 ns) delay and issues no network
request; with no cached blob it is a no-op that changes no state and raises
no error. -/
theorem C7_repeat_last_plays_cache_or_noop (s : ClientState) (a : PilotAction)
    (rt : String) (ok : Bool) (hname : a.name = "repeat_last") :
    (∀ d, s.lastServerAudioData = some d →
      applyPilotAction s a rt ok
        = ((playServerAudio s d ok).1,
            .applyAction "repeat_last" :: .sleep 200000000 :: (playServerAudio s d ok).2) ∧
      (∀ req, Event.netRequest req ∉ (applyPilotAction s a rt ok).2)) ∧
    (s.lastServerAudioData = none →
      applyPilotAction s a rt ok = (s, [.applyAction "repeat_last"])) := by
  constructor
  · intro d hd
    have heq : applyPilotAction s a rt ok
        = ((playServerAudio s d ok).1,
            .applyAction "repeat_last" :: .sleep 200000000 :: (playServerAudio s d ok).2) := by
      rw [applyPilotAction_eq, pilotActionBody_repeat_last s a rt ok hname, hd, hname]
      dsimp only
      rw [playServerAudioDelayed, delayNanos_fifth]
      norm_num
    refine ⟨heq, fun req hmem => ?_⟩
    rw [heq] at hmem
    rcases ok with _ | _ <;> simp [playServerAudio_trace] at hmem
  · intro hd
    rw [applyPilotAction_eq, pilotActionBody_repeat_last s a rt ok hname, hd, hname]

theorem C7_witness :
    (applyPilotAction { initialState with lastServerAudioData := some [7] }
        ⟨"repeat_last", none⟩ "r" true).2
      = [.applyAction "repeat_last", .sleep 200000000, .playbackStart [7]] ∧
    applyPilotAction initialState ⟨"repeat_last", none⟩ "r" true
      = (initialState, [.applyAction "repeat_last"]) := by
  have h := C7_repeat_last_plays_cache_or_noop
    { initialState with lastServerAudioData := some [7] } ⟨"repeat_last", none⟩ "r" true rfl
  have h0 := C7_repeat_last_plays_cache_or_noop initialState ⟨"repeat_last", none⟩ "r" true rfl
  refine ⟨?_, h0.2 rfl⟩
  rw [(h.1 [7] rfl).1]
  rfl

/-- C2: any `adjust_volume` leaves the master volume in `[0, 1]` whatever
the delta; any `set_volume` with a numeric value leaves it in `[0, 1]`
whatever the value; every reachable state has master volume in `[0, 1]`;
and every assignment to a volume (the `volumeWrite` events of the two entry
points) writes a value in `[0, 1]`. -/
theorem C2_volume_always_clamped :
    (∀ s a rt ok, a.name = "adjust_volume" → VolInv (applyPilotAction s a rt ok).1) ∧
    (∀ s a rt ok v, a.name = "set_volume" → a.argFloat "value" = some v →
      VolInv (applyPilotAction s a rt ok).1) ∧
    (∀ s, Reachable s → VolInv s) ∧
    (∀ s read a1 a2 ok, GoodWrites (stopRecordingAndSend s read a1 a2 ok).2) ∧
    (∀ s micOk url errMsg, GoodWrites (startRecording s micOk url errMsg).2) := by
  refine ⟨?_, ?_, volInv_reachable, goodWrites_stopRecordingAndSend, goodWrites_startRecording⟩
  · intro s a rt ok hname
    show VolInv (pilotActionBody s a rt ok).1
    rw [pilotActionBody_adjust_volume s a rt ok hname]
    exact volInv_setMasterVolume _ _
  · intro s a rt ok v hname hv
    show VolInv (pilotActionBody s a rt ok).1
    rw [pilotActionBody_set_volume s a rt ok hname, hv]
    exact volInv_setMasterVolume _ _

theorem C2_witness :
    VolInv (applyPilotAction initialState
      ⟨"adjust_volume", some [("delta", .double 100)]⟩ "r" true).1 ∧
    VolInv (applyPilotAction initialState
      ⟨"set_volume", some [("value", .double (-7))]⟩ "r" true).1 ∧
    VolInv initialState ∧
    GoodWrites (stopRecordingAndSend initialState (.ok []) (.ok 200 ⟨"", none⟩)
      (.ok 200 ⟨"", none⟩) true).2 ∧
    GoodWrites (startRecording initialState true "u" "m").2 :=
  ⟨C2_volume_always_clamped.1 initialState _ "r" true rfl,
   C2_volume_always_clamped.2.1 initialState _ "r" true (-7) rfl rfl,
   C2_volume_always_clamped.2.2.1 initialState Reachable.init,
   C2_volume_always_clamped.2.2.2.1 initialState (.ok []) (.ok 200 ⟨"", none⟩)
     (.ok 200 ⟨"", none⟩) true,
   C2_volume_always_clamped.2.2.2.2 initialState true "u" "m"⟩

/-- C8: in every reachable state at most one playback handle is playing,
and starting a new playback stops the handle referenced by `audioPlayer`
before the new one is created (whether or not the new construction
succeeds). -/
theorem C8_single_active_playback :
    (∀ s, Reachable s → activePlaybackCount s ≤ 1) ∧
    (∀ s d ok i h, s.audioPlayerIdx = some i → s.players.get? i = some h →
      (playServerAudio s d ok).1.players.get? i = some { h with playing := false }) := by
  constructor
  · intro s hs
    exact handleInv_at_most_one (handleInv_reachable s hs)
  · intro s d ok i h hidx hget
    have hlt : i < s.players.length := by
      by_contra hc
      rw [List.get?_eq_none.mpr (by omega)] at hget
      cases hget
    rw [playServerAudio, hidx]
    dsimp only
    split
    · have hlen : i < (stopHandle s.players i).length := by
        rw [stopHandle_length]; exact hlt
      rw [List.get?_append hlen, stopHandle_get?_self, hget]
      rfl
    · rw [stopHandle_get?_self, hget]
      rfl

theorem C8_witness :
    activePlaybackCount initialState ≤ 1 ∧
    (playServerAudio { initialState with players := [⟨[1], true⟩], audioPlayerIdx := some 0 }
        [2] true).1.players.get? 0 = some ⟨[1], false⟩ :=
  ⟨C8_single_active_playback.1 initialState Reachable.init,
   C8_single_active_playback.2 _ [2] true 0 ⟨[1], true⟩ rfl rfl⟩

/-- C1 as stated is false: when the initial status is 503 (a retried
gateway status) and the retry answers 429, the failure on the retry is
surfaced as the distinct busy error, not as a normal HTTP error.  At this
concrete input the orchestrator performs the retry and throws the busy
NSError (`DispatchError.busy`), which is a different error from every
`DispatchError.http`. -/
theorem C1_counterexample_retry_429_is_busy :
    (sendToBackend ⟨"pathlight_dispatch_v1", "nova", "1", "speech.m4a"⟩ (.ok [])
        (.ok 503 ⟨"gateway", none⟩) (.ok 429 ⟨"rate", none⟩)).requests = 2 ∧
    (sendToBackend ⟨"pathlight_dispatch_v1", "nova", "1", "speech.m4a"⟩ (.ok [])
        (.ok 503 ⟨"gateway", none⟩) (.ok 429 ⟨"rate", none⟩)).result
      = .error (.busy "rate") ∧
    DispatchError.isHttp (.busy "rate") = false ∧
    DispatchError.isBusy (.busy "rate") = true :=
  ⟨rfl, rfl, rfl, rfl⟩

/-- C1 (amended): a first status in {502, 503, 504} triggers exactly one
retry of the identical request after a fixed 1.5 s (1500000000 ns) back-off,
and the retry response is then handled exactly like a first response is
after the retry window: 429 surfaces the distinct busy error, any other
non-200 (gateway statuses included) surfaces a normal HTTP error, with no
further retries.  A first status of 429 is never retried and surfaces the
busy error immediately; any other non-retried non-200 status surfaces a
normal HTTP error with zero retries. -/
theorem C1_retry_policy (req : RequestData) (bytes : List Nat) :
    (∀ s1 b1 a2, (s1 = 502 ∨ s1 = 503 ∨ s1 = 504) →
      (sendToBackend req (.ok bytes) (.ok s1 b1) a2).requests = 2 ∧
      (sendToBackend req (.ok bytes) (.ok s1 b1) a2).trace
        = [.netRequest req, .statusSet "Waking server…", .sleep 1500000000, .netRequest req] ∧
      (∀ b2, a2 = .ok 429 b2 →
        (sendToBackend req (.ok bytes) (.ok s1 b1) a2).result = .error (.busy b2.text)) ∧
      (∀ s2 b2, a2 = .ok s2 b2 → s2 ≠ 429 → s2 ≠ 200 →
        (sendToBackend req (.ok bytes) (.ok s1 b1) a2).result
          = .error (.http s2 b2.text))) ∧
    (∀ b1 a2,
      (sendToBackend req (.ok bytes) (.ok 429 b1) a2).requests = 1 ∧
      (sendToBackend req (.ok bytes) (.ok 429 b1) a2).result = .error (.busy b1.text)) ∧
    (∀ s1 b1 a2, s1 ≠ 200 → s1 ≠ 429 → s1 ≠ 502 → s1 ≠ 503 → s1 ≠ 504 →
      (sendToBackend req (.ok bytes) (.ok s1 b1) a2).requests = 1 ∧
      (sendToBackend req (.ok bytes) (.ok s1 b1) a2).result
        = .error (.http s1 b1.text)) := by
  refine ⟨?_, ?_, ?_⟩
  · intro s1 b1 a2 hgw
    rw [sendToBackend.eq_def]
    dsimp only
    rw [if_pos hgw]
    refine ⟨?_, ?_, ?_, ?_⟩
    · cases a2 <;> rfl
    · cases a2 <;> rfl
    · intro b2 ha2
      subst ha2
      rfl
    · intro s2 b2 ha2 h429 h200
      subst ha2
      dsimp only
      rw [finishResponse, if_neg h429, if_pos h200]
  · intro b1 a2
    rw [sendToBackend.eq_def]
    dsimp only
    rw [if_neg (by norm_num)]
    exact ⟨rfl, rfl⟩
  · intro s1 b1 a2 h200 h429 h502 h503 h504
    rw [sendToBackend.eq_def]
    dsimp only
    rw [if_neg (by rintro (h | h | h) <;> [exact h502 h; exact h503 h; exact h504 h])]
    refine ⟨rfl, ?_⟩
    dsimp only
    rw [finishResponse, if_neg h429, if_pos h200]

theorem C1_witness :
    ((503 : Nat) = 502 ∨ (503 : Nat) = 503 ∨ (503 : Nat) = 504) ∧
    (sendToBackend ⟨"m", "nova", "1", "a"⟩ (.ok []) (.ok 503 ⟨"g", none⟩)
        (.ok 503 ⟨"g2", none⟩)).requests = 2 ∧
    (sendToBackend ⟨"m", "nova", "1", "a"⟩ (.ok []) (.ok 503 ⟨"g", none⟩)
        (.ok 503 ⟨"g2", none⟩)).result = .error (.http 503 "g2") ∧
    (sendToBackend ⟨"m", "nova", "1", "a"⟩ (.ok []) (.ok 429 ⟨"r", none⟩)
        (.ok 200 ⟨"", none⟩)).requests = 1 ∧
    (sendToBackend ⟨"m", "nova", "1", "a"⟩ (.ok []) (.ok 418 ⟨"t", none⟩)
        (.ok 200 ⟨"", none⟩)).requests = 1 ∧
    (sendToBackend ⟨"m", "nova", "1", "a"⟩ (.ok []) (.ok 418 ⟨"t", none⟩)
        (.ok 200 ⟨"", none⟩)).result = .error (.http 418 "t") := by
  have h1 := (C1_retry_policy ⟨"m", "nova", "1", "a"⟩ []).1 503 ⟨"g", none⟩
    (.ok 503 ⟨"g2", none⟩) (Or.inr (Or.inl rfl))
  have h2 := (C1_retry_policy ⟨"m", "nova", "1", "a"⟩ []).2.1 ⟨"r", none⟩ (.ok 200 ⟨"", none⟩)
  have h3 := (C1_retry_policy ⟨"m", "nova", "1", "a"⟩ []).2.2 418 ⟨"t", none⟩
    (.ok 200 ⟨"", none⟩) (by norm_num) (by norm_num) (by norm_num) (by norm_num) (by norm_num)
  exact ⟨Or.inr (Or.inl rfl), h1.1,
    h1.2.2.2 503 ⟨"g2", none⟩ rfl (by norm_num) (by norm_num), h2.1, h3.1, h3.2⟩

/-- C9 as stated is false for a 2xx status other than 200: a 201 response
whose JSON envelope carries an undecodable base64 audio field is not turned
into a `DispatchResult` with no audio; the orchestrator throws a normal
HTTP error, because only status 200 is treated as success. -/
theorem C9_counterexample_201_fails :
    (sendToBackend ⟨"pathlight_dispatch_v1", "nova", "1", "speech.m4a"⟩ (.ok [])
        (.ok 201 ⟨"body", some ⟨"t", "rep", some "!!!!", some "audio/mpeg", none⟩⟩)
        (.ok 200 ⟨"", none⟩)).result
      = .error (.http 201 "body") ∧
    base64Decode "!!!!" = none :=
  ⟨rfl, rfl⟩

/-- C9 (amended to status 200, the only status the code accepts): a 200
response whose JSON envelope decodes but whose base64 audio field fails to
decode yields a successful `BackendResult` with `audioData = none`;
transcript, reply, MIME and action are taken from the envelope unchanged. -/
theorem C9_bad_audio_degrades_to_none (req : RequestData) (bytes : List Nat)
    (a2 : HttpAttempt) (txt : String) (env : BackendResponse) (b64 : String)
    (henv : env.audio_b64 = some b64) (hdec : base64Decode b64 = none) :
    (sendToBackend req (.ok bytes) (.ok 200 ⟨txt, some env⟩) a2).result
      = .ok { transcript := env.transcript
              reply := env.reply
              audioData := none
              audioMime := env.audio_mime
              action := env.action } := by
  have h1 : (sendToBackend req (.ok bytes) (.ok 200 ⟨txt, some env⟩) a2).result
      = finishResponse 200 ⟨txt, some env⟩ := by
    rw [sendToBackend.eq_def]
    dsimp only
    rw [if_neg (by norm_num)]
  have h2 : finishResponse 200 ⟨txt, some env⟩
      = .ok { transcript := env.transcript
              reply := env.reply
              audioData := env.audio_b64.bind base64Decode
              audioMime := env.audio_mime
              action := env.action } := rfl
  have h3 : env.audio_b64.bind base64Decode = none := by
    rw [henv]
    exact hdec
  rw [h1, h2, h3]

theorem C9_witness :
    (⟨"t", "rep", some "%%%%", some "audio/mpeg", none⟩ :
        BackendResponse).audio_b64 = some "%%%%" ∧
    base64Decode "%%%%" = none ∧
    (sendToBackend ⟨"m", "nova", "1", "a"⟩ (.ok [])
        (.ok 200 ⟨"body", some ⟨"t", "rep", some "%%%%", some "audio/mpeg", none⟩⟩)
        (.ok 200 ⟨"", none⟩)).result
      = .ok { transcript := "t", reply := "rep", audioData := none,
              audioMime := some "audio/mpeg", action := none } :=
  ⟨rfl, rfl,
    C9_bad_audio_degrades_to_none ⟨"m", "nova", "1", "a"⟩ [] (.ok 200 ⟨"", none⟩)
      "body" ⟨"t", "rep", some "%%%%", some "audio/mpeg", none⟩ "%%%%" rfl rfl⟩

/-- C3 as stated is false: a `save_feedback` action whose `note` argument
is present but empty does not fall back to the replyText.  At this concrete
input the reply is "hello" (non-empty even after trimming), yet nothing is
persisted and the state is unchanged, whereas the claim requires the
trimmed reply "hello" to be persisted. -/
theorem C3_counterexample_empty_note_no_fallback :
    applyPilotAction initialState ⟨"save_feedback", some [("note", .str "")]⟩ "hello" true
      = (initialState, [.applyAction "save_feedback"]) ∧
    (applyPilotAction initialState ⟨"save_feedback", some [("note", .str "")]⟩
        "hello" true).1.feedbackNotes = [] ∧
    trimWS "hello" = "hello" ∧
    "hello" ≠ "" :=
  ⟨rfl, rfl, rfl, by decide⟩

/-- C3 (amended): the replyText is used as the note only when the `note`
argument is absent (or not a string); a present note — even the empty
string — is used as-is.  The chosen note is trimmed of surrounding
whitespace, and a note that is empty after trimming is discarded silently
with nothing persisted; otherwise exactly the trimmed note is appended to
the feedback file. -/
theorem C3_save_feedback_trims_and_discards (s : ClientState) (a : PilotAction)
    (rt : String) (ok : Bool) (hname : a.name = "save_feedback") :
    (trimWS ((a.argString "note").getD rt) = "" →
      applyPilotAction s a rt ok = (s, [.applyAction "save_feedback"])) ∧
    (trimWS ((a.argString "note").getD rt) ≠ "" →
      applyPilotAction s a rt ok
        = ({ s with feedbackNotes :=
              s.feedbackNotes ++ [trimWS ((a.argString "note").getD rt)] },
            [.applyAction "save_feedback",
             .persistNote (trimWS ((a.argString "note").getD rt))])) := by
  constructor
  · intro h
    rw [applyPilotAction_eq, pilotActionBody_save_feedback s a rt ok hname, hname,
      saveFeedbackNote, if_pos h]
  · intro h
    rw [applyPilotAction_eq, pilotActionBody_save_feedback s a rt ok hname, hname,
      saveFeedbackNote, if_neg h]

/-- C4: when the dispatch exchange fails (thrown transport/file error,
non-200 status, or JSON decode failure), the Pilot Action Executor is never
invoked (no `applyAction` event, nor any playback/persist/volume-write
effect), the failure is reported only as status text, and all other
published state is unchanged. -/
theorem C4_failed_dispatch_never_applies_action (s : ClientState) (recUrl : String)
    (read : Except String (List Nat)) (a1 a2 : HttpAttempt) (ok : Bool)
    (e : DispatchError) (hrec : s.recorder = some recUrl)
    (herr : (sendToBackend (requestFor s recUrl) read a1 a2).result = .error e) :
    (stopRecordingAndSend s read a1 a2 ok).1.status
        = "Dispatch error: " ++ e.localizedDescription ∧
    (∀ n, Event.applyAction n ∉ (stopRecordingAndSend s read a1 a2 ok).2) ∧
    (∀ d, Event.playbackStart d ∉ (stopRecordingAndSend s read a1 a2 ok).2) ∧
    (∀ n, Event.persistNote n ∉ (stopRecordingAndSend s read a1 a2 ok).2) ∧
    (∀ v, Event.volumeWrite v ∉ (stopRecordingAndSend s read a1 a2 ok).2) ∧
    (stopRecordingAndSend s read a1 a2 ok).1.lastTranscript = s.lastTranscript ∧
    (stopRecordingAndSend s read a1 a2 ok).1.lastReply = s.lastReply ∧
    (stopRecordingAndSend s read a1 a2 ok).1.pilotMasterVolume = s.pilotMasterVolume ∧
    (stopRecordingAndSend s read a1 a2 ok).1.lastServerAudioData = s.lastServerAudioData ∧
    (stopRecordingAndSend s read a1 a2 ok).1.lastServerAudioMime = s.lastServerAudioMime ∧
    (stopRecordingAndSend s read a1 a2 ok).1.players = s.players ∧
    (stopRecordingAndSend s read a1 a2 ok).1.feedbackNotes = s.feedbackNotes := by
  rw [stopRecordingAndSend_error s recUrl read a1 a2 ok e hrec herr]
  refine ⟨rfl, ?_, ?_, ?_, ?_, rfl, rfl, rfl, rfl, rfl, rfl, rfl⟩
  all_goals
    intro x hmem
    rcases List.mem_cons.mp hmem with h | h
    · exact Event.noConfusion h
    · rcases List.mem_append.mp h with h2 | h2
      · rcases sendToBackend_trace_only_net_status_sleep _ read a1 a2 _ h2
          with h3 | h3 | h3 <;> exact Event.noConfusion h3
      · exact Event.noConfusion (List.mem_singleton.mp h2)

theorem C4_witness :
    ({ initialState with recorder := some "u" } : ClientState).recorder = some "u" ∧
    (sendToBackend (requestFor { initialState with recorder := some "u" } "u") (.ok [])
        (.ok 500 ⟨"boom", none⟩) (.ok 200 ⟨"", none⟩)).result = .error (.http 500 "boom") ∧
    (stopRecordingAndSend { initialState with recorder := some "u" } (.ok [])
        (.ok 500 ⟨"boom", none⟩) (.ok 200 ⟨"", none⟩) true).1.status
      = "Dispatch error: " ++ DispatchError.localizedDescription (.http 500 "boom") ∧
    Event.applyAction "set_volume" ∉ (stopRecordingAndSend
        { initialState with recorder := some "u" } (.ok [])
        (.ok 500 ⟨"boom", none⟩) (.ok 200 ⟨"", none⟩) true).2 := by
  have h := C4_failed_dispatch_never_applies_action
    { initialState with recorder := some "u" } "u" (.ok [])
    (.ok 500 ⟨"boom", none⟩) (.ok 200 ⟨"", none⟩) true (.http 500 "boom") rfl rfl
  exact ⟨rfl, rfl, h.1, h.2.1 "set_volume"⟩

/-- C5: on a successful dispatch carrying both an action and audio, the
whole effect trace decomposes as a prefix (which contains the action
application) followed by the delayed reply playback, and the playback runs
from the action-applied state — so the action's state changes take effect
before the reply audio starts. -/
theorem C5_action_before_reply_playback (s : ClientState) (recUrl : String)
    (read : Except String (List Nat)) (a1 a2 : HttpAttempt) (ok : Bool)
    (r : BackendResult) (act : PilotAction) (d : List Nat)
    (hrec : s.recorder = some recUrl)
    (hok : (sendToBackend (requestFor s recUrl) read a1 a2).result = .ok r)
    (hact : r.action = some act)
    (haud : r.audioData = some d) :
    ∃ pre post,
      stopRecordingAndSend s read a1 a2 ok = (post.1, pre ++ post.2) ∧
      Event.applyAction act.name ∈ pre ∧
      post = playServerAudioDelayed
          { (applyPilotAction { s with
                isRecording := false
                recorder := none
                status := "Done"
                lastTranscript := r.transcript
                lastReply := r.reply } act r.reply ok).1 with
            lastServerAudioData := some d
            lastServerAudioMime := r.audioMime }
          d
          (applyPilotAction { s with
                isRecording := false
                recorder := none
                status := "Done"
                lastTranscript := r.transcript
                lastReply := r.reply } act r.reply ok).1.replyPlaybackDelaySeconds ok ∧
      pre = Event.statusSet "Uploading…"
          :: (sendToBackend (requestFor s recUrl) read a1 a2).trace
          ++ [Event.statusSet "Done"]
          ++ (applyPilotAction { s with
                isRecording := false
                recorder := none
                status := "Done"
                lastTranscript := r.transcript
                lastReply := r.reply } act r.reply ok).2 := by
  refine ⟨_, _, ?_, ?_, rfl, rfl⟩
  · rw [stopRecordingAndSend_ok s recUrl read a1 a2 ok r hrec hok]
    dsimp only
    rw [hact, haud]
  · exact List.mem_append.mpr (Or.inr (by
      rw [applyPilotAction_eq]
      exact List.mem_cons_self _ _))

theorem C5_witness :
    ∃ pre post,
      stopRecordingAndSend { initialState with recorder := some "u" } (.ok [])
          (.ok 200 ⟨"body", some ⟨"t", "rep", some "TWFu", some "audio/mpeg",
            some ⟨"set_tts", some [("enabled", .bool false)]⟩⟩⟩)
          (.ok 200 ⟨"", none⟩) true
        = (post.1, pre ++ post.2) ∧
      Event.applyAction (PilotAction.name ⟨"set_tts", some [("enabled", .bool false)]⟩) ∈ pre ∧
      post = playServerAudioDelayed
          { (applyPilotAction { ({ initialState with recorder := some "u" } : ClientState) with
                isRecording := false
                recorder := none
                status := "Done"
                lastTranscript := "t"
                lastReply := "rep" } ⟨"set_tts", some [("enabled", .bool false)]⟩ "rep" true).1 with
            lastServerAudioData := some [77, 97, 110]
            lastServerAudioMime := some "audio/mpeg" }
          [77, 97, 110]
          (applyPilotAction { ({ initialState with recorder := some "u" } : ClientState) with
                isRecording := false
                recorder := none
                status := "Done"
                lastTranscript := "t"
                lastReply := "rep" } ⟨"set_tts", some [("enabled", .bool false)]⟩ "rep" true).1.replyPlaybackDelaySeconds true ∧
      pre = Event.statusSet "Uploading…"
          :: (sendToBackend (requestFor { initialState with recorder := some "u" } "u") (.ok [])
              (.ok 200 ⟨"body", some ⟨"t", "rep", some "TWFu", some "audio/mpeg",
                some ⟨"set_tts", some [("enabled", .bool false)]⟩⟩⟩)
              (.ok 200 ⟨"", none⟩)).trace
          ++ [Event.statusSet "Done"]
          ++ (applyPilotAction { ({ initialState with recorder := some "u" } : ClientState) with
                isRecording := false
                recorder := none
                status := "Done"
                lastTranscript := "t"
                lastReply := "rep" } ⟨"set_tts", some [("enabled", .bool false)]⟩ "rep" true).2 :=
  C5_action_before_reply_playback { initialState with recorder := some "u" } "u" (.ok [])
    (.ok 200 ⟨"body", some ⟨"t", "rep", some "TWFu", some "audio/mpeg",
      some ⟨"set_tts", some [("enabled", .bool false)]⟩⟩⟩)
    (.ok 200 ⟨"", none⟩) true
    { transcript := "t", reply := "rep", audioData := some [77, 97, 110],
      audioMime := some "audio/mpeg",
      action := some ⟨"set_tts", some [("enabled", .bool false)]⟩ }
    ⟨"set_tts", some [("enabled", .bool false)]⟩ [77, 97, 110] rfl rfl rfl rfl

/-- C6: after a successful dispatch with audio, the played bytes and their
declared MIME type are exactly the content of the one-slot
"last server audio" cache, whatever the cache held before (the cache is
overwritten); a `repeat_last` playback likewise plays exactly the cached
bytes, which remain the cache content afterwards. -/
theorem C6_last_audio_cached :
    (∀ s recUrl read a1 a2 ok r d,
      s.recorder = some recUrl →
      (sendToBackend (requestFor s recUrl) read a1 a2).result = .ok r →
      r.audioData = some d →
      (stopRecordingAndSend s read a1 a2 ok).1.lastServerAudioData = some d ∧
      (stopRecordingAndSend s read a1 a2 ok).1.lastServerAudioMime = r.audioMime ∧
      (ok = true →
        Event.playbackStart d ∈ (stopRecordingAndSend s read a1 a2 ok).2)) ∧
    (∀ s a rt d, PilotAction.name a = "repeat_last" → s.lastServerAudioData = some d →
      (applyPilotAction s a rt true).1.lastServerAudioData = some d ∧
      (applyPilotAction s a rt true).1.lastServerAudioMime = s.lastServerAudioMime ∧
      Event.playbackStart d ∈ (applyPilotAction s a rt true).2) := by
  constructor
  · intro s recUrl read a1 a2 ok r d hrec hok haud
    rw [stopRecordingAndSend_ok s recUrl read a1 a2 ok r hrec hok]
    dsimp only
    rw [haud]
    dsimp only
    refine ⟨?_, ?_, ?_⟩
    · rw [playServerAudioDelayed_cacheData]
    · rw [playServerAudioDelayed_cacheMime]
    · intro hok2
      subst hok2
      exact List.mem_append.mpr (Or.inr (playbackStart_mem_delayed _ d _))
  · intro s a rt d hname hd
    have hbody : pilotActionBody s a rt true = playServerAudioDelayed s d (1/5) true := by
      rw [pilotActionBody_repeat_last s a rt true hname, hd]
    refine ⟨?_, ?_, ?_⟩
    · show (pilotActionBody s a rt true).1.lastServerAudioData = some d
      rw [hbody, playServerAudioDelayed_cacheData]
      exact hd
    · show (pilotActionBody s a rt true).1.lastServerAudioMime = s.lastServerAudioMime
      rw [hbody, playServerAudioDelayed_cacheMime]
    · show Event.playbackStart d ∈ Event.applyAction a.name :: (pilotActionBody s a rt true).2
      rw [hbody]
      exact List.mem_cons_of_mem _ (playbackStart_mem_delayed s d (1/5))

theorem C6_witness :
    (stopRecordingAndSend { initialState with recorder := some "u" } (.ok [])
        (.ok 200 ⟨"body", some ⟨"t", "rep", some "TWFu", some "audio/mpeg", none⟩⟩)
        (.ok 200 ⟨"", none⟩) true).1.lastServerAudioData = some [77, 97, 110] ∧
    (stopRecordingAndSend { initialState with recorder := some "u" } (.ok [])
        (.ok 200 ⟨"body", some ⟨"t", "rep", some "TWFu", some "audio/mpeg", none⟩⟩)
        (.ok 200 ⟨"", none⟩) true).1.lastServerAudioMime = some "audio/mpeg" ∧
    Event.playbackStart [77, 97, 110] ∈ (stopRecordingAndSend
        { initialState with recorder := some "u" } (.ok [])
        (.ok 200 ⟨"body", some ⟨"t", "rep", some "TWFu", some "audio/mpeg", none⟩⟩)
        (.ok 200 ⟨"", none⟩) true).2 ∧
    (applyPilotAction { initialState with lastServerAudioData := some [7] }
        ⟨"repeat_last", none⟩ "r" true).1.lastServerAudioData = some [7] := by
  have h := C6_last_audio_cached.1 { initialState with recorder := some "u" } "u" (.ok [])
    (.ok 200 ⟨"body", some ⟨"t", "rep", some "TWFu", some "audio/mpeg", none⟩⟩)
    (.ok 200 ⟨"", none⟩) true
    { transcript := "t", reply := "rep", audioData := some [77, 97, 110],
      audioMime := some "audio/mpeg", action := none }
    [77, 97, 110] rfl rfl rfl
  have h2 := C6_last_audio_cached.2 { initialState with lastServerAudioData := some [7] }
    ⟨"repeat_last", none⟩ "r" [7] rfl rfl
  exact ⟨h.1, h.2.1, h.2.2 rfl, h2.1⟩

theorem C3_witness :
    (applyPilotAction initialState ⟨"save_feedback", some [("note", .str "  ")]⟩
        "fine" true = (initialState, [.applyAction "save_feedback"])) ∧
    (applyPilotAction initialState ⟨"save_feedback", none⟩ " noted " true
      = ({ initialState with feedbackNotes := ["noted"] },
          [.applyAction "save_feedback", .persistNote "noted"])) := by
  have h1 := (C3_save_feedback_trims_and_discards initialState
    ⟨"save_feedback", some [("note", .str "  ")]⟩ "fine" true rfl).1 rfl
  have h2 := (C3_save_feedback_trims_and_discards initialState
    ⟨"save_feedback", none⟩ " noted " true rfl).2 (by decide)
  exact ⟨h1, h2⟩

end PathLight
